import Mathlib

/-!
Verification of the multi-source orchestration engine in
`langgraph_mcp_bot.py` (with the issue-tracker adapter of
`tools/jira_tool.py`), as a shallow embedding: the module registry and
tool wiring become a `Config`, external adapter behaviours become an
`Adapters` record of `Except`-valued results (`Except.error` standing for
a raised Python exception), each graph node becomes a function
`ChatState → Except Unit ChatState`, and the compiled graph becomes `run`,
which also records the list of executed node names.
-/

namespace LangGraphBot

/-- Whether the character list `sub` is an initial segment of `l`. -/
def charsLead : List Char → List Char → Bool
  | [], _ => true
  | _ :: _, [] => false
  | a :: as, b :: bs => a == b && charsLead as bs

/-- Whether `sub` occurs contiguously inside `l` (Python `sub in l`). -/
def charsContain (sub : List Char) : List Char → Bool
  | [] => charsLead sub []
  | b :: bs => charsLead sub (b :: bs) || charsContain sub bs

/-- Python substring test `needle in s`. -/
def strContains (s needle : String) : Bool :=
  charsContain needle.toList s.toList

/-- The whitespace stripped by Python `str.strip()` (ASCII part). -/
def isPySpace (ch : Char) : Bool :=
  ch == ' ' || ch == '\t' || ch == '\n' || ch == '\x0d' ||
  ch == '\x0b' || ch == '\x0c'

/-- Python `s.strip()`: leading and trailing whitespace removed. -/
def pyStrip (s : String) : String :=
  String.mk (((s.toList.dropWhile isPySpace).reverse.dropWhile isPySpace).reverse)

/-- Python `s.lower()` (ASCII case folding). -/
def pyLower (s : String) : String := String.mk (s.toList.map Char.toLower)

/-- Python `s.upper()` (ASCII case folding). -/
def pyUpper (s : String) : String := String.mk (s.toList.map Char.toUpper)

/-- Python truthiness of an optional string: `None` and `""` are falsy. -/
def pyTruthy : Option String → Bool
  | none => false
  | some s => !(s == "")

/-- Python `x or d` for an optional string `x`. -/
def pyOrStr (o : Option String) (d : String) : String :=
  match o with
  | some s => if s == "" then d else s
  | none => d

/-- The module registry plus the tool wiring of `get_tools`:
which modules are enabled, which adapters constructed successfully
(`get_rag_chain` returning a marker-tagged `RAGTool` rather than `None`,
and so on), whether the test-case generator was constructed
(`OPENAI_API_KEY` present), and the JIRA credential environment read by
`JiraConfig`. -/
structure Config where
  ragEnabled : Bool
  sqlEnabled : Bool
  searchEnabled : Bool
  jiraEnabled : Bool
  ragToolOk : Bool
  sqlToolOk : Bool
  searchToolOk : Bool
  jiraToolOk : Bool
  testGenOk : Bool
  jiraUrl : Option String
  jiraUsername : Option String
  jiraApiToken : Option String
  jiraProjectKey : Option String
deriving Repr, DecidableEq

/-- `module_manager.is_enabled(name)`: the registry flag for a known
module name, false for an unknown name. -/
def is_enabled (c : Config) (name : String) : Bool :=
  if name = "rag" then c.ragEnabled
  else if name = "sql" then c.sqlEnabled
  else if name = "search" then c.searchEnabled
  else if name = "jira" then c.jiraEnabled
  else false

/-- `JiraConfig.is_configured`: `all([url, username, api_token,
project_key])` over the loaded environment values (Python truthiness, so
an unset variable or an empty string fails the check). -/
def jira_is_configured (c : Config) : Bool :=
  pyTruthy c.jiraUrl && pyTruthy c.jiraUsername &&
  pyTruthy c.jiraApiToken && pyTruthy c.jiraProjectKey

/-- Whether the `tools` list built by `get_tools` is non-empty: every
enabled module except JIRA appends one entry even when construction
failed (the fallback is `None` or a plain lambda), while `get_jira_tools`
returns an empty list when the JIRA tool's construction raises. -/
def toolsNonempty (c : Config) : Bool :=
  is_enabled c "rag" || is_enabled c "sql" || is_enabled c "search" ||
  (is_enabled c "jira" && c.jiraToolOk)

/-- A tool with the `is_rag_tool` marker is in `tools`. -/
def hasRagTool (c : Config) : Bool := is_enabled c "rag" && c.ragToolOk

/-- A tool with the `is_sql_agent` marker is in `tools`. -/
def hasSqlTool (c : Config) : Bool := is_enabled c "sql" && c.sqlToolOk

/-- A tool with the `is_search_tool` marker is in `tools`. -/
def hasSearchTool (c : Config) : Bool := is_enabled c "search" && c.searchToolOk

/-- A tool with the `is_jira_tool` marker is in `tools`. -/
def hasJiraTool (c : Config) : Bool := is_enabled c "jira" && c.jiraToolOk

/-- A tool with the `is_test_case_generator` marker is in `tools`
(`get_jira_tools` appends it after the JIRA tool when the OpenAI key is
present and its construction succeeds). -/
def hasTestGenTool (c : Config) : Bool :=
  is_enabled c "jira" && c.jiraToolOk && c.testGenOk

instance {ε α : Type} [DecidableEq ε] [DecidableEq α] : DecidableEq (Except ε α) := fun x y =>
  match x, y with
  | .error e, .error f =>
    if h : e = f then isTrue (by rw [h]) else isFalse (fun hc => h (by cases hc; rfl))
  | .ok a, .ok b =>
    if h : a = b then isTrue (by rw [h]) else isFalse (fun hc => h (by cases hc; rfl))
  | .error _, .ok _ => isFalse (fun hc => Except.noConfusion hc)
  | .ok _, .error _ => isFalse (fun hc => Except.noConfusion hc)

/-- The behaviour of each external adapter invocation for the query of
the current request. `Except.error ()` models the call raising;
`Except.ok` carries what the call returned. `ragResp` is the response
text extracted in `rag_node` (`response.get('result','')` or
`str(response)`), `sqlResp` the `str(response)` of the SQL agent,
`serpResp`/`jiraResp` the string-or-`None` returns of the search and
JIRA tools, `genRespInline` the test-case generator call made inside
`jira_node`, and `genRespTC` the generator call made in
`test_case_node`. -/
structure Adapters where
  ragResp : Except Unit String
  sqlResp : Except Unit String
  serpResp : Except Unit (Option String)
  jiraResp : Except Unit (Option String)
  genRespInline : Except Unit (Option String)
  genRespTC : Except Unit (Option String)
deriving Repr, DecidableEq

/-- The `ChatState` TypedDict threaded through the graph. A key absent
from the Python dict reads as `None` via `state.get`, so absent and
`None` coincide as `none`; `found` defaults to the falsy `False`. -/
structure ChatState where
  input : String
  rag_context : Option String := none
  sql_context : Option String := none
  serp_context : Option String := none
  jira_context : Option String := none
  test_cases : Option String := none
  final_answer : Option String := none
  found : Bool := false
deriving Repr, DecidableEq

/-- The state the graph is invoked with: `app.invoke({"input": query})`. -/
def initState (q : String) : ChatState := { input := q }

/-- `rag_node`: gated on the module flag and a non-empty tool list, then
on finding the marker-tagged RAG tool; the adapter call is not wrapped
in a try block, so a raise propagates. A response containing
"I don't know" or whose trimmed length is below 5 is rejected. -/
def rag_node (c : Config) (a : Adapters) (s : ChatState) : Except Unit ChatState :=
  if !(is_enabled c "rag" && toolsNonempty c) then .ok s
  else if !hasRagTool c then .ok s
  else
    match a.ragResp with
    | .error e => .error e
    | .ok response_text =>
      if strContains response_text "I don't know" || (pyStrip response_text).length < 5 then
        .ok { s with rag_context := none, found := false }
      else
        .ok { s with rag_context := some response_text, found := true }

/-- The meaningfulness check of `mysql_node` on the stripped result. -/
def sql_meaningful (result : String) : Bool :=
  decide (result.length > 0) &&
  !strContains (pyLower result) "error" &&
  !strContains (pyLower result) "i don't know" &&
  !strContains (pyLower result) "no relevant information" &&
  !strContains (pyLower result) "could not find" &&
  !strContains (pyLower result) "invalid format" &&
  !strContains (pyLower result) "could not parse" &&
  !strContains (pyLower result) "no results"

/-- `mysql_node`: gated like `rag_node`; the body is wrapped in a try
block, so a raising adapter (or any other failure) is caught and treated
as rejection. -/
def mysql_node (c : Config) (a : Adapters) (s : ChatState) : Except Unit ChatState :=
  if !(is_enabled c "sql" && toolsNonempty c) then .ok s
  else if !hasSqlTool c then .ok s
  else
    match a.sqlResp with
    | .error _ => .ok { s with sql_context := none, found := false }
    | .ok raw =>
      let result := pyStrip raw
      if sql_meaningful result then
        .ok { s with sql_context := some result, found := true }
      else
        .ok { s with sql_context := none, found := false }

/-- `serp_node`: the adapter call is not wrapped in a try block, so a
raise propagates; a truthy response is stored as-is. -/
def serp_node (c : Config) (a : Adapters) (s : ChatState) : Except Unit ChatState :=
  if !(is_enabled c "search" && toolsNonempty c) then .ok s
  else if !hasSearchTool c then .ok s
  else
    match a.serpResp with
    | .error e => .error e
    | .ok response =>
      if pyTruthy response then
        .ok { s with serp_context := response, found := true }
      else
        .ok { s with serp_context := none, found := false }

/-- `jira_node`: checks the module flag and tool list, then
`jira_config.is_configured()` before any adapter call. The search and
the optional inline test-case generation sit in a try block, but the
except handler's log line references the `traceback` module, which
`langgraph_mcp_bot.py` never imports: when the body raises, the handler
itself raises `NameError`, so the exception escapes the node and the
handler's assignments nulling `jira_context` and `found` never run. A
falsy search response (no exception) is still handled normally. -/
def jira_node (c : Config) (a : Adapters) (s : ChatState) : Except Unit ChatState :=
  if !(is_enabled c "jira" && toolsNonempty c) then .ok s
  else if !jira_is_configured c then .ok { s with jira_context := none, found := false }
  else if !hasJiraTool c then .ok s
  else
    match a.jiraResp with
    | .error _ => .error ()
    | .ok response =>
      if pyTruthy response then
        let s1 : ChatState := { s with jira_context := response, found := true }
        if hasTestGenTool c then
          match a.genRespInline with
          | .error _ => .error ()
          | .ok g => .ok { s1 with test_cases := g }
        else .ok s1
      else
        .ok { s with jira_context := none, found := false }

/-- `test_case_node`: regenerates test cases when JIRA content is
present; the generator call is not wrapped in a try block, so a raise
propagates, and a falsy response nulls `test_cases` and resets `found`. -/
def test_case_node (c : Config) (a : Adapters) (s : ChatState) : Except Unit ChatState :=
  if !(is_enabled c "jira" && toolsNonempty c) then .ok s
  else if !hasTestGenTool c then .ok s
  else if pyTruthy s.jira_context then
    match a.genRespTC with
    | .error e => .error e
    | .ok response =>
      if pyTruthy response then
        .ok { s with test_cases := response, found := true }
      else
        .ok { s with test_cases := none, found := false }
  else .ok s

/-- Python `"sep".join(pieces)`. -/
def joinStrs (sep : String) : List String → String
  | [] => ""
  | [x] => x
  | x :: y :: rest => x ++ sep ++ joinStrs sep (y :: rest)

/-- The sentinel answer of `final_answer_node`. -/
def sentinel : String := "No relevant information found from enabled modules."

/-- The labeled source contributions collected by `final_answer_node`,
in its fixed order (each guarded by the module flag and the truthiness
of the stored context). -/
def final_answer_sources (c : Config) (s : ChatState) : List String :=
  (if is_enabled c "rag" && pyTruthy s.rag_context then
     ["From knowledge base: " ++ pyOrStr s.rag_context ""] else []) ++
  (if is_enabled c "sql" && pyTruthy s.sql_context then
     ["From database: " ++ pyOrStr s.sql_context ""] else []) ++
  (if is_enabled c "search" && pyTruthy s.serp_context then
     ["From web search: " ++ pyOrStr s.serp_context ""] else []) ++
  (if is_enabled c "jira" then
     (if pyTruthy s.jira_context then
        ["From JIRA: " ++ pyOrStr s.jira_context ""] else []) ++
     (if pyTruthy s.test_cases then
        ["\nGenerated Test Cases:\n" ++ pyOrStr s.test_cases ""] else [])
   else [])

/-- The final answer computed by `final_answer_node`: the contributions
joined by a blank line, or the sentinel when there are none. -/
def final_answer_text (c : Config) (s : ChatState) : String :=
  let sources := final_answer_sources c s
  if sources.isEmpty then sentinel else joinStrs "\n\n" sources

/-- `final_answer_node`: computes the answer, then — because the
computed answer is always truthy — performs the output-directory and
file write with no surrounding try block. `persistOk` is the behaviour
of that write; `false` (the write raising) makes the node raise. -/
def final_answer_node (c : Config) (persistOk : Bool) (s : ChatState) :
    Except Unit ChatState :=
  let ans := final_answer_text c s
  let s1 : ChatState := { s with final_answer := some ans }
  if ans == "" then .ok s1
  else if persistOk then .ok s1 else .error ()

/-- `has_jira_results`: `bool(state.get("jira_context"))`. -/
def has_jira_results (s : ChatState) : Bool := pyTruthy s.jira_context

/-- `get_next_node`: from the entry node, the first enabled module in
the fixed order rag, sql, search, jira, else the answer node; from any
other node, the answer node. -/
def get_next_node (c : Config) (current_node : String) : String :=
  if current_node = "entry" then
    if is_enabled c "rag" then "RAG"
    else if is_enabled c "sql" then "MySQL"
    else if is_enabled c "search" then "WebSearch"
    else if is_enabled c "jira" then "JIRA"
    else "Answer"
  else "Answer"

/-- The source-stage part of the compiled graph: the conditional edge
out of `entry` selects one source node; `RAG`, `MySQL` and `WebSearch`
have unconditional edges to `Answer`, while `JIRA` goes through
`TestCases` exactly when `has_jira_results` holds. The second component
records the executed node names. -/
def run_source (c : Config) (a : Adapters) (q : String) :
    Except Unit (ChatState × List String) :=
  if get_next_node c "entry" = "RAG" then
    Except.map (fun s => (s, ["entry", "RAG"])) (rag_node c a (initState q))
  else if get_next_node c "entry" = "MySQL" then
    Except.map (fun s => (s, ["entry", "MySQL"])) (mysql_node c a (initState q))
  else if get_next_node c "entry" = "WebSearch" then
    Except.map (fun s => (s, ["entry", "WebSearch"])) (serp_node c a (initState q))
  else if get_next_node c "entry" = "JIRA" then
    Except.bind (jira_node c a (initState q)) (fun s1 =>
      if has_jira_results s1 then
        Except.map (fun s2 => (s2, ["entry", "JIRA", "TestCases"]))
          (test_case_node c a s1)
      else Except.ok (s1, ["entry", "JIRA"]))
  else Except.ok (initState q, ["entry"])

/-- One full graph invocation `app.invoke({"input": q})`: the source
stage selected from entry, then the terminal `Answer` stage. -/
def run (c : Config) (a : Adapters) (persistOk : Bool) (q : String) :
    Except Unit (ChatState × List String) :=
  Except.bind (run_source c a q) (fun p =>
    Except.map (fun s => (s, p.2 ++ ["Answer"])) (final_answer_node c persistOk p.1))

/-! The issue-tracker adapter `JIRATool.invoke` of `tools/jira_tool.py`,
with the external JIRA client abstracted to a `JiraClient` record of
behaviours. -/

/-- One issue as read by the result formatting of `JIRATool.invoke`
(`issue.key`, `issue.fields.summary`, `issue.fields.status.name`, the
optional assignee's `displayName`, the possibly empty description). -/
structure JiraIssue where
  key : String
  summary : String
  statusName : String
  assigneeDisplayName : Option String
  description : Option String
deriving Repr, DecidableEq

/-- The external JIRA side of `JIRATool.invoke`: the configuration
predicate, whether `jira_config.get_jira()` yields an instance (it
catches its own failures and returns `None` on a connection error), and
the behaviour of `jira.search_issues` on a JQL string. -/
structure JiraClient where
  configured : Bool
  getJiraOk : Bool
  projectKey : Option String
  searchIssues : String → Except Unit (List JiraIssue)

/-- Uppercase ASCII letter, as in the `[A-Z]` regex class. -/
def isUpperAZ (ch : Char) : Bool := 'A' ≤ ch && ch ≤ 'Z'

/-- ASCII letter, as in the `[A-Za-z]` regex class. -/
def isLetterAZ (ch : Char) : Bool :=
  ('A' ≤ ch && ch ≤ 'Z') || ('a' ≤ ch && ch ≤ 'z')

/-- ASCII digit, as in the `\d` regex class. -/
def isDigit09 (ch : Char) : Bool := '0' ≤ ch && ch ≤ '9'

/-- A leftmost match of `[A-Z]+-\d+` starting exactly here: the maximal
uppercase run, a hyphen, the maximal digit run; with what follows. -/
def tryKey (l : List Char) : Option (String × List Char) :=
  let p := l.span isUpperAZ
  if p.1.isEmpty then none
  else
    match p.2 with
    | '-' :: r2 =>
      let d := r2.span isDigit09
      if d.1.isEmpty then none
      else some (String.mk (p.1 ++ '-' :: d.1), d.2)
    | _ => none

/-- Fueled scan for all non-overlapping matches of `[A-Z]+-\d+`
(`re.findall` of `extract_issue_keys`); fuel is the remaining length. -/
def findKeysAux : Nat → List Char → List String
  | 0, _ => []
  | _ + 1, [] => []
  | n + 1, l@(_ :: rest) =>
    match tryKey l with
    | some kr => kr.1 :: findKeysAux n kr.2
    | none => findKeysAux n rest

/-- `extract_issue_keys`: the regex matches of `[A-Z]+-\d+` with
duplicates removed (`list(set(...))`, modelled as keeping first
occurrences). -/
def extract_issue_keys (query : String) : List String :=
  (findKeysAux query.toList.length query.toList).eraseDups

/-- `re.match(r'^[A-Za-z]+-\d+$', s)`: letters, a hyphen, then digits to
the end. -/
def looksLikeKey (s : String) : Bool :=
  let p := s.toList.span isLetterAZ
  !p.1.isEmpty &&
    (match p.2 with
     | '-' :: r2 => !r2.isEmpty && r2.all isDigit09
     | _ => false)

/-- The markdown block built for one issue inside `JIRATool.invoke`. -/
def formatIssue (i : JiraIssue) : String :=
  let assignee_name :=
    match i.assigneeDisplayName with
    | some d => d
    | none => "Unassigned"
  "### " ++ i.key ++ ": " ++ i.summary ++
  "\n**Status:** " ++ i.statusName ++ "  |  **Assignee:** " ++ assignee_name ++
  "\n**Description:**\n" ++ pyOrStr i.description "No description" ++ "\n"

/-- The JQL string `JIRATool.invoke` builds from the cleaned query. -/
def buildJql (env : JiraClient) (clean_query : String) : String :=
  let issue_keys := extract_issue_keys clean_query
  if issue_keys.isEmpty then
    if looksLikeKey clean_query then
      "key = \"" ++ pyUpper clean_query ++ "\""
    else
      "project = \"" ++ pyOrStr env.projectKey "None" ++ "\" AND text ~ \"" ++
        clean_query ++ "\" ORDER BY created DESC"
  else
    "(" ++ joinStrs " OR " (issue_keys.map (fun k => "key = \"" ++ k ++ "\"")) ++ ")"

/-- The body of the try block of `JIRATool.invoke`: configuration check,
instance acquisition, query cleaning, JQL construction, search, and
result formatting. A raise from the client surfaces as `Except.error`. -/
def jiratool_invoke_body (env : JiraClient) (query : String) :
    Except Unit (Option String) :=
  if !env.configured then .ok none
  else if !env.getJiraOk then .ok none
  else
    let clean_query := pyStrip query
    let jql := buildJql env clean_query
    match env.searchIssues jql with
    | .error e => .error e
    | .ok issues =>
      if issues.isEmpty then .ok none
      else
        let results := issues.map formatIssue
        if issues.length > 1 then
          .ok (some ("Found " ++ toString issues.length ++ " JIRA issues:\n\n" ++
            joinStrs "\n\n" results))
        else
          .ok (some (joinStrs "\n" results))

/-- `JIRATool.invoke`: the whole body sits in one try block whose except
clause logs and returns `None`, so the caller observes a formatted
string or `None`, never a raise. -/
def JIRATool_invoke (env : JiraClient) (query : String) :
    Except Unit (Option String) :=
  match jiratool_invoke_body env query with
  | .error _ => .ok none
  | .ok r => .ok r

/-! Spec-side definitions, written from the specification's words, for
the claims that compare code against them. -/

/-- Modelled from the spec: the Entry routing rule as §4.4 states it —
scan the sources in the fixed priority order knowledge-base, database,
web-search, issue-tracker and transition to the first one whose module
is enabled, else directly to Answer. -/
def entry_route_spec (c : Config) : String :=
  match [("RAG", is_enabled c "rag"), ("MySQL", is_enabled c "sql"),
         ("WebSearch", is_enabled c "search"), ("JIRA", is_enabled c "jira")].find?
      (fun p => p.2) with
  | some p => p.1
  | none => "Answer"

/-- The database validity judgment in the words of the claim: the
trimmed text is non-empty and contains, case-insensitively, none of the
seven rejection markers. -/
def db_valid_spec (t : String) : Bool :=
  !(t == "") &&
  (["error", "i don't know", "no relevant information", "could not find",
    "invalid format", "could not parse", "no results"].all
    (fun n => !strContains (pyLower t) n))

/-- The knowledge-base rejection rule in the words of the claim: the
text contains "I don't know" or its trimmed length is below 5. -/
def kb_reject_spec (t : String) : Bool :=
  strContains t "I don't know" || decide ((pyStrip t).length < 5)

/-! Concrete registry states and adapter behaviours used to instantiate
the claims. -/

/-- Every module disabled, no tool constructed, no JIRA credentials. -/
def cfgOff : Config :=
  { ragEnabled := false, sqlEnabled := false, searchEnabled := false,
    jiraEnabled := false, ragToolOk := false, sqlToolOk := false,
    searchToolOk := false, jiraToolOk := false, testGenOk := false,
    jiraUrl := none, jiraUsername := none, jiraApiToken := none,
    jiraProjectKey := none }

/-- Only the knowledge-base module, with its tool constructed. -/
def cfgRagOnly : Config := { cfgOff with ragEnabled := true, ragToolOk := true }

/-- Only the database module, with its agent constructed. -/
def cfgSqlOnly : Config := { cfgOff with sqlEnabled := true, sqlToolOk := true }

/-- Knowledge base and web search enabled, both tools constructed. -/
def cfgRagSearch : Config :=
  { cfgOff with
    ragEnabled := true
    ragToolOk := true
    searchEnabled := true
    searchToolOk := true }

/-- JIRA fully set up: module enabled, tool and generator constructed,
all four credentials present. -/
def cfgJiraFull : Config :=
  { cfgOff with
    jiraEnabled := true
    jiraToolOk := true
    testGenOk := true
    jiraUrl := some "https://jira.example.com"
    jiraUsername := some "user@example.com"
    jiraApiToken := some "token123"
    jiraProjectKey := some "PROJ" }

/-- JIRA set up but without the test-case generator. -/
def cfgJiraNoGen : Config := { cfgJiraFull with testGenOk := false }

/-- JIRA module enabled and tool constructed, but the API token is
absent, so `is_configured` fails. -/
def cfgJiraNoToken : Config := { cfgJiraFull with jiraApiToken := none }

/-- Every adapter invocation raises. -/
def advAllRaise : Adapters :=
  { ragResp := .error (), sqlResp := .error (), serpResp := .error (),
    jiraResp := .error (), genRespInline := .error (), genRespTC := .error () }

/-- Knowledge base answers "KB-ANSWER", web search "WS-ANSWER". -/
def advKbWs : Adapters :=
  { advAllRaise with
    ragResp := .ok "KB-ANSWER"
    serpResp := .ok (some "WS-ANSWER") }

/-- The SQL agent returns a "No Results" message without raising. -/
def advSqlNoResults : Adapters :=
  { advAllRaise with sqlResp := .ok "  No Results found  " }

/-- The RAG chain returns a two-character response. -/
def advKbShort : Adapters := { advAllRaise with ragResp := .ok "hi" }

/-- The JIRA search returns issue text. -/
def advJiraHit : Adapters :=
  { advAllRaise with jiraResp := .ok (some "BUG-1 details") }

/-- The state `jira_node` produces from `initState "q"` under
`cfgJiraNoGen` and `advJiraHit`. -/
def c9mid : ChatState :=
  { input := "q", jira_context := some "BUG-1 details", found := true }

/-! Helper lemmas. -/

lemma bind_all_error {α β : Type} (x : Except Unit α) (f : α → Except Unit β)
    (h : ∀ v, f v = Except.error ()) : Except.bind x f = Except.error () := by
  cases x with
  | error e => cases e; rfl
  | ok v => exact h v

lemma str_of_length_zero (s : String) (h : s.length = 0) : s = "" := by
  cases s with
  | mk data =>
    cases data with
    | nil => rfl
    | cons c cs => simp [String.length] at h

lemma append_ne_empty_left (a b : String) (h : a ≠ "") : a ++ b ≠ "" := by
  intro hc
  apply h
  have hl := congrArg String.length hc
  rw [String.length_append, show ("" : String).length = 0 from rfl] at hl
  exact str_of_length_zero a (by omega)

lemma joinStrs_cons_ne (sep x : String) (xs : List String) (hx : x ≠ "") :
    joinStrs sep (x :: xs) ≠ "" := by
  cases xs with
  | nil => simpa [joinStrs] using hx
  | cons y ys =>
    show x ++ sep ++ joinStrs sep (y :: ys) ≠ ""
    exact append_ne_empty_left _ _ (append_ne_empty_left _ _ hx)

lemma mem_sources_ne_empty (c : Config) (s : ChatState) :
    ∀ x ∈ final_answer_sources c s, x ≠ "" := by
  intro x hx
  unfold final_answer_sources at hx
  simp only [List.mem_append] at hx
  rcases hx with ((h | h) | h) | h
  · split at h
    · simp only [List.mem_singleton] at h
      subst h; exact append_ne_empty_left _ _ (by decide)
    · simp at h
  · split at h
    · simp only [List.mem_singleton] at h
      subst h; exact append_ne_empty_left _ _ (by decide)
    · simp at h
  · split at h
    · simp only [List.mem_singleton] at h
      subst h; exact append_ne_empty_left _ _ (by decide)
    · simp at h
  · split at h
    · simp only [List.mem_append] at h
      rcases h with h | h
      · split at h
        · simp only [List.mem_singleton] at h
          subst h; exact append_ne_empty_left _ _ (by decide)
        · simp at h
      · split at h
        · simp only [List.mem_singleton] at h
          subst h; exact append_ne_empty_left _ _ (by decide)
        · simp at h
    · simp at h

lemma final_answer_text_ne (c : Config) (s : ChatState) :
    final_answer_text c s ≠ "" := by
  unfold final_answer_text
  cases hl : final_answer_sources c s with
  | nil => simp [sentinel]
  | cons x xs =>
    simp only [List.isEmpty_cons, ite_false, Bool.false_eq_true]
    exact joinStrs_cons_ne _ x xs
      (mem_sources_ne_empty c s x (hl ▸ List.mem_cons_self x xs))

lemma final_answer_node_persist_fail (c : Config) (s : ChatState) :
    final_answer_node c false s = Except.error () := by
  unfold final_answer_node
  have h := final_answer_text_ne c s
  simp [h]

lemma final_answer_node_blank (c : Config) (s : ChatState)
    (h1 : s.rag_context = none) (h2 : s.sql_context = none)
    (h3 : s.serp_context = none) (h4 : s.jira_context = none)
    (h5 : s.test_cases = none) :
    final_answer_node c true s = Except.ok { s with final_answer := some sentinel } := by
  unfold final_answer_node final_answer_text final_answer_sources
  simp [h1, h2, h3, h4, h5, pyTruthy, sentinel]

lemma str_length_pos (s : String) (h : s ≠ "") : 0 < s.length := by
  rcases hn : s.length with _ | n
  · exact absurd (str_of_length_zero s hn) h
  · omega

lemma sql_meaningful_eq_spec (t : String) : sql_meaningful t = db_valid_spec t := by
  have hlen : decide (t.length > 0) = !(t == "") := by
    by_cases h : t = ""
    · subst h; rfl
    · have h1 : (t == "") = false := by simp [h]
      have h2 : decide (t.length > 0) = true := by
        simp [str_length_pos t h]
      rw [h1, h2]; rfl
  unfold sql_meaningful db_valid_spec
  rw [hlen]
  simp only [List.all_cons, List.all_nil, Bool.and_true]
  generalize (t == "") = b0
  generalize strContains (pyLower t) "error" = b1
  generalize strContains (pyLower t) "i don't know" = b2
  generalize strContains (pyLower t) "no relevant information" = b3
  generalize strContains (pyLower t) "could not find" = b4
  generalize strContains (pyLower t) "invalid format" = b5
  generalize strContains (pyLower t) "could not parse" = b6
  generalize strContains (pyLower t) "no results" = b7
  revert b0 b1 b2 b3 b4 b5 b6 b7
  decide

lemma pyTruthy_isSome (o : Option String) (h : pyTruthy o = true) :
    o.isSome = true := by
  cases o with
  | none => simp [pyTruthy] at h
  | some s => rfl

lemma jira_node_truthiness (c : Config) (a : Adapters) (s s' : ChatState)
    (h : jira_node c a s = Except.ok s') (h0 : s.jira_context = none) :
    has_jira_results s' = s'.jira_context.isSome := by
  unfold jira_node at h
  split at h
  · cases h; simp [has_jira_results, h0, pyTruthy]
  · split at h
    · cases h; simp [has_jira_results, pyTruthy]
    · split at h
      · cases h; simp [has_jira_results, h0, pyTruthy]
      · split at h
        · simp at h
        · rename_i response heq
          split at h
          · rename_i htru
            split at h
            · split at h
              · simp at h
              · cases h
                simp [has_jira_results, htru, pyTruthy_isSome response htru]
            · cases h
              simp [has_jira_results, htru, pyTruthy_isSome response htru]
          · cases h; simp [has_jira_results, pyTruthy]

lemma get_next_node_entry (c : Config) :
    get_next_node c "entry" =
      (if is_enabled c "rag" then "RAG"
       else if is_enabled c "sql" then "MySQL"
       else if is_enabled c "search" then "WebSearch"
       else if is_enabled c "jira" then "JIRA"
       else "Answer") := rfl

lemma bind_eq_ok {α β : Type} (x : Except Unit α) (f : α → Except Unit β) (y : β)
    (h : Except.bind x f = Except.ok y) : ∃ v, x = Except.ok v ∧ f v = Except.ok y := by
  cases x with
  | error e => simp [Except.bind] at h
  | ok v => exact ⟨v, rfl, h⟩

lemma map_eq_ok {α β : Type} (g : α → β) (x : Except Unit α) (y : β)
    (h : Except.map g x = Except.ok y) : ∃ v, x = Except.ok v ∧ g v = y := by
  cases x with
  | error e => simp [Except.map] at h
  | ok v => refine ⟨v, rfl, ?_⟩; simpa [Except.map] using h

lemma route_mysql_flags (c : Config) (h : get_next_node c "entry" = "MySQL") :
    is_enabled c "rag" = false ∧ is_enabled c "sql" = true := by
  rw [get_next_node_entry] at h
  cases hR : is_enabled c "rag" with
  | true => simp [hR] at h
  | false =>
    simp only [hR, Bool.false_eq_true, if_false] at h
    cases hS : is_enabled c "sql" with
    | true => exact ⟨rfl, rfl⟩
    | false =>
      simp only [hS, Bool.false_eq_true, if_false] at h
      cases hSe : is_enabled c "search" with
      | true => simp [hSe] at h
      | false =>
        simp only [hSe, Bool.false_eq_true, if_false] at h
        cases hJ : is_enabled c "jira" with
        | true => simp [hJ] at h
        | false => simp [hJ] at h

lemma route_jira_flags (c : Config) (h : get_next_node c "entry" = "JIRA") :
    is_enabled c "rag" = false ∧ is_enabled c "sql" = false ∧
    is_enabled c "search" = false ∧ is_enabled c "jira" = true := by
  rw [get_next_node_entry] at h
  cases hR : is_enabled c "rag" with
  | true => simp [hR] at h
  | false =>
    simp only [hR, Bool.false_eq_true, if_false] at h
    cases hS : is_enabled c "sql" with
    | true => simp [hS] at h
    | false =>
      simp only [hS, Bool.false_eq_true, if_false] at h
      cases hSe : is_enabled c "search" with
      | true => simp [hSe] at h
      | false =>
        simp only [hSe, Bool.false_eq_true, if_false] at h
        cases hJ : is_enabled c "jira" with
        | true => exact ⟨rfl, rfl, rfl, rfl⟩
        | false => simp [hJ] at h

lemma run_blank_to_sentinel (c : Config) (a : Adapters) (q : String)
    (s : ChatState) (tr : List String)
    (hsrc : run_source c a q = Except.ok (s, tr))
    (h1 : s.rag_context = none) (h2 : s.sql_context = none)
    (h3 : s.serp_context = none) (h4 : s.jira_context = none)
    (h5 : s.test_cases = none) :
    run c a true q =
      Except.ok ({ s with final_answer := some sentinel }, tr ++ ["Answer"]) := by
  unfold run
  rw [hsrc]
  show Except.map _ (final_answer_node c true s) = _
  rw [final_answer_node_blank c s h1 h2 h3 h4 h5]
  rfl

/-! The claims. -/

/-- C1 counterexample: with only the knowledge-base module enabled and
its adapter raising on invoke, the graph invocation raises instead of
returning the sentinel — `rag_node` has no try block. -/
theorem c1_counterexample : run cfgRagOnly advAllRaise true "q" = Except.error () := rfl

/-- C1 amended: fail-soft holds only when the source stage that runs is
the database stage, the one stage whose try block works: if the entry
router selects MySQL and every adapter raises, the run still returns
normally with the sentinel answer. On the knowledge-base and web-search
routes the adapter's exception escapes the graph (no try block;
counterexample), and on the issue-tracker route (tool present, tracker
configured) the except handler's reference to the unimported
`traceback` module raises `NameError`, so the run crashes there as
well. -/
theorem c1_failsoft_db_only (c : Config) (a : Adapters) (q : String)
    (hrag : a.ragResp = Except.error ()) (hsql : a.sqlResp = Except.error ())
    (hserp : a.serpResp = Except.error ()) (hjira : a.jiraResp = Except.error ()) :
    (get_next_node c "entry" = "MySQL" →
      ∃ s tr, run c a true q = Except.ok (s, tr) ∧ s.final_answer = some sentinel) ∧
    (get_next_node c "entry" = "JIRA" → c.jiraToolOk = true →
      jira_is_configured c = true → run c a true q = Except.error ()) := by
  constructor
  · intro hroute
    obtain ⟨hR, hS⟩ := route_mysql_flags c hroute
    cases hT : c.sqlToolOk with
    | false =>
      have hsrc : run_source c a q = Except.ok (initState q, ["entry", "MySQL"]) := by
        simp [run_source, hroute, mysql_node, toolsNonempty, hasSqlTool, hR, hS, hT,
          Except.map]
      exact ⟨_, _, run_blank_to_sentinel c a q _ _ hsrc rfl rfl rfl rfl rfl, rfl⟩
    | true =>
      have hsrc : run_source c a q =
          Except.ok ({ initState q with sql_context := none, found := false },
            ["entry", "MySQL"]) := by
        simp [run_source, hroute, mysql_node, toolsNonempty, hasSqlTool, hR, hS, hT, hsql,
          Except.map]
      exact ⟨_, _, run_blank_to_sentinel c a q _ _ hsrc rfl rfl rfl rfl rfl, rfl⟩
  · intro hroute hT hC
    obtain ⟨hR, hS, hSe, hJ⟩ := route_jira_flags c hroute
    have hjn : jira_node c a (initState q) = Except.error () := by
      simp [jira_node, toolsNonempty, hasJiraTool, hR, hS, hSe, hJ, hT, hC, hjira]
    unfold run run_source
    rw [hroute]
    rw [if_neg (by decide), if_neg (by decide), if_neg (by decide), if_pos rfl]
    rw [hjn]
    rfl

/-- C1 witness: the amended statement's database half with only the
database module enabled and every adapter raising. -/
theorem c1_witness :
    ∃ s tr, run cfgSqlOnly advAllRaise true "q" = Except.ok (s, tr) ∧
      s.final_answer = some sentinel :=
  (c1_failsoft_db_only cfgSqlOnly advAllRaise "q" rfl rfl rfl rfl).1 (by decide)

/-- C3 counterexample: the knowledge-base stage computes a non-null
answer, the persistence write in the Answer stage fails, and the whole
run raises instead of returning the computed answer — the write has no
try block. -/
theorem c3_counterexample : run cfgRagOnly advKbWs false "q" = Except.error () := rfl

/-- C3 amended: a persistence failure is not tolerated — because the
computed final answer is always a non-empty string, the write is always
attempted, and when it raises, the exception escapes the graph on every
configuration, adapter behaviour and query, so the in-memory answer is
lost. -/
theorem c3_persist_propagates (c : Config) (a : Adapters) (q : String) :
    run c a false q = Except.error () := by
  unfold run
  exact bind_all_error _ _ (fun p => by rw [final_answer_node_persist_fail]; rfl)

/-- C2 counterexample: with exactly knowledge base and web search
enabled and both adapters answering, the run returns only the
knowledge-base line — each source stage has an unconditional edge to
Answer, so the web-search stage never executes — refuting the claimed
merged answer. -/
theorem c2_counterexample :
    run cfgRagSearch advKbWs true "q" =
      Except.ok ({ input := "q", rag_context := some "KB-ANSWER",
                   final_answer := some "From knowledge base: KB-ANSWER", found := true },
                 ["entry", "RAG", "Answer"]) ∧
    ¬ ("From knowledge base: KB-ANSWER" =
       "From knowledge base: KB-ANSWER\n\nFrom web search: WS-ANSWER") :=
  ⟨rfl, by decide⟩

/-- C2 amended: with knowledge base and web search enabled, the
knowledge-base adapter returning "KB-ANSWER" and the web-search adapter
returning "WS-ANSWER", only the first enabled source (the knowledge
base) runs; the final answer is its labeled line alone and the
web-search result field stays null (the final state records it as
`none`, and the trace shows the web-search stage never executed). -/
theorem c2_first_source_only (q : String) :
    run cfgRagSearch advKbWs true q =
      Except.ok ({ input := q, rag_context := some "KB-ANSWER",
                   final_answer := some "From knowledge base: KB-ANSWER", found := true },
                 ["entry", "RAG", "Answer"]) := rfl

/-- C5: the entry router equals the spec's priority scan (first enabled
of knowledge base, database, web search, issue tracker, else Answer),
and with every module disabled the run goes straight from entry to the
Answer stage, returning the sentinel with every per-source result field
null. -/
theorem c5_entry_routing :
    (∀ c : Config, get_next_node c "entry" = entry_route_spec c) ∧
    (∀ (a : Adapters) (q : String),
      run cfgOff a true q =
        Except.ok ({ input := q, final_answer := some sentinel }, ["entry", "Answer"])) := by
  constructor
  · intro c
    unfold get_next_node entry_route_spec
    cases h1 : is_enabled c "rag" <;> cases h2 : is_enabled c "sql" <;>
      cases h3 : is_enabled c "search" <;> cases h4 : is_enabled c "jira" <;>
        simp [h1, h2, h3, h4, List.find?]
  · intro a q
    rfl

/-- C6: at the database stage with the module enabled and the agent
present, a non-raising adapter return is stored (trimmed) exactly when
it satisfies the spec's validity judgment — non-empty after trimming
and free, case-insensitively, of the seven rejection markers — and a
raising adapter is caught and treated as rejection. -/
theorem c6_db_validity (c : Config) (a : Adapters) (s : ChatState)
    (h1 : is_enabled c "sql" = true) (h2 : c.sqlToolOk = true) :
    mysql_node c a s = (
      match a.sqlResp with
      | Except.error _ => Except.ok { s with sql_context := none, found := false }
      | Except.ok raw =>
        if db_valid_spec (pyStrip raw) then
          Except.ok { s with sql_context := some (pyStrip raw), found := true }
        else Except.ok { s with sql_context := none, found := false }) := by
  have ht : toolsNonempty c = true := by simp [toolsNonempty, h1]
  have hst : hasSqlTool c = true := by simp [hasSqlTool, h1, h2]
  cases hres : a.sqlResp with
  | error e => cases e; simp [mysql_node, h1, ht, hst, hres]
  | ok raw => simp [mysql_node, h1, ht, hst, hres, sql_meaningful_eq_spec]

/-- C6 witness: a successful adapter return containing "No Results"
(mixed case) leaves the database result null. -/
theorem c6_witness :
    mysql_node cfgSqlOnly advSqlNoResults (initState "q") =
      Except.ok { initState "q" with sql_context := none, found := false } := by
  have h := c6_db_validity cfgSqlOnly advSqlNoResults (initState "q") (by decide) (by decide)
  rw [h]
  rfl

/-- C7: at the knowledge-base stage with the module enabled and the
tool present, a response text is rejected (result null, found reset)
exactly when it contains "I don't know" or its trimmed length is below
5, and otherwise stored with `found` set. -/
theorem c7_kb_validity (c : Config) (a : Adapters) (s : ChatState) (txt : String)
    (h1 : is_enabled c "rag" = true) (h2 : c.ragToolOk = true)
    (h3 : a.ragResp = Except.ok txt) :
    rag_node c a s = (
      if kb_reject_spec txt then Except.ok { s with rag_context := none, found := false }
      else Except.ok { s with rag_context := some txt, found := true }) := by
  have ht : toolsNonempty c = true := by simp [toolsNonempty, h1]
  have hrt : hasRagTool c = true := by simp [hasRagTool, h1, h2]
  simp [rag_node, h1, ht, hrt, h3, kb_reject_spec]

/-- C7 witness: a two-character response is below the length threshold
and is rejected. -/
theorem c7_witness :
    rag_node cfgRagOnly advKbShort (initState "q") =
      Except.ok { initState "q" with rag_context := none, found := false } := by
  have h := c7_kb_validity cfgRagOnly advKbShort (initState "q") "hi" (by decide) (by decide) rfl
  rw [h]
  rfl

/-- C8: when `is_configured()` is false, the issue-tracker stage's
result does not depend on the adapter's invoke behaviour (the adapter
is never reached), and the issue-tracker result field is null after the
stage (it was null at graph entry). -/
theorem c8_jira_gating (c : Config) (a : Adapters) (r : Except Unit (Option String))
    (s : ChatState) (hconf : jira_is_configured c = false) (h0 : s.jira_context = none) :
    jira_node c { a with jiraResp := r } s = jira_node c a s ∧
    (∀ s', jira_node c a s = Except.ok s' → s'.jira_context = none) := by
  by_cases hA : (is_enabled c "jira" && toolsNonempty c) = true
  · have e1 : jira_node c { a with jiraResp := r } s =
        Except.ok { s with jira_context := none, found := false } := by
      simp [jira_node, hA, hconf]
    have e2 : jira_node c a s =
        Except.ok { s with jira_context := none, found := false } := by
      simp [jira_node, hA, hconf]
    refine ⟨e1.trans e2.symm, ?_⟩
    intro s' h
    rw [e2] at h
    cases h
    rfl
  · simp only [Bool.not_eq_true] at hA
    have e1 : jira_node c { a with jiraResp := r } s = Except.ok s := by
      simp [jira_node, hA]
    have e2 : jira_node c a s = Except.ok s := by
      simp [jira_node, hA]
    refine ⟨e1.trans e2.symm, ?_⟩
    intro s' h
    rw [e2] at h
    cases h
    exact h0

/-- C8 witness: the JIRA module enabled and its tool present, but the
API token absent; the stage result is independent of a raising-vs-null
adapter, and the result field stays null. -/
theorem c8_witness :
    jira_node cfgJiraNoToken { advAllRaise with jiraResp := Except.ok (some "HIT") }
        (initState "q") =
      jira_node cfgJiraNoToken advAllRaise (initState "q") ∧
    (∀ s', jira_node cfgJiraNoToken advAllRaise (initState "q") = Except.ok s' →
      s'.jira_context = none) :=
  c8_jira_gating cfgJiraNoToken advAllRaise (Except.ok (some "HIT")) (initState "q")
    (by decide) rfl

/-- C9: whenever the entry router selects the JIRA stage and the run
completes, the recorded path goes through the TestCases stage exactly
when the state produced by the JIRA stage carries a non-null
issue-tracker result, and otherwise directly to Answer. -/
theorem c9_conditional_routing (c : Config) (a : Adapters) (pk : Bool) (q : String)
    (s1 sf : ChatState) (tr : List String)
    (hroute : get_next_node c "entry" = "JIRA")
    (hj : jira_node c a (initState q) = Except.ok s1)
    (hr : run c a pk q = Except.ok (sf, tr)) :
    tr = (if s1.jira_context.isSome then ["entry", "JIRA", "TestCases", "Answer"]
          else ["entry", "JIRA", "Answer"]) := by
  have hshape := jira_node_truthiness c a (initState q) s1 hj rfl
  unfold run run_source at hr
  rw [hroute] at hr
  rw [if_neg (by decide), if_neg (by decide), if_neg (by decide), if_pos rfl] at hr
  obtain ⟨p, hsrcp, hAns⟩ := bind_eq_ok _ _ _ hr
  obtain ⟨s1', hj', hfJ⟩ := bind_eq_ok _ _ _ hsrcp
  rw [hj] at hj'
  cases hj'
  rw [hshape] at hfJ
  cases hs : s1.jira_context.isSome with
  | true =>
    rw [hs, if_pos rfl] at hfJ
    obtain ⟨s2, htc, hps⟩ := map_eq_ok _ _ _ hfJ
    subst hps
    obtain ⟨s3, hfa, hy⟩ := map_eq_ok _ _ _ hAns
    cases hy
    rfl
  | false =>
    rw [hs, if_neg (by simp)] at hfJ
    cases hfJ
    obtain ⟨s3, hfa, hy⟩ := map_eq_ok _ _ _ hAns
    cases hy
    rfl

/-- C9 witness: JIRA-only configuration with a search hit; the run's
path is entry, JIRA, TestCases, Answer, as the theorem demands for a
non-null result. -/
theorem c9_witness :
    (["entry", "JIRA", "TestCases", "Answer"] : List String) =
      (if c9mid.jira_context.isSome then ["entry", "JIRA", "TestCases", "Answer"]
       else ["entry", "JIRA", "Answer"]) :=
  c9_conditional_routing cfgJiraNoGen advJiraHit true "q" c9mid
    { c9mid with final_answer := some "From JIRA: BUG-1 details" }
    ["entry", "JIRA", "TestCases", "Answer"] (by decide) rfl rfl

/-- C10: `JIRATool.invoke` is total over external behaviours — whatever
the client does (configuration absent, connection failure, a raise
during the search, an empty result set), the caller observes a plain
return of a string or `None`, never a propagated exception; a raise
inside the body and each of the listed failure modes yield `None`. -/
theorem c10_invoke_total (env : JiraClient) (q : String) :
    (∃ r : Option String, JIRATool_invoke env q = Except.ok r) ∧
    (jiratool_invoke_body env q = Except.error () → JIRATool_invoke env q = Except.ok none) ∧
    (env.configured = false → JIRATool_invoke env q = Except.ok none) ∧
    (env.getJiraOk = false → JIRATool_invoke env q = Except.ok none) ∧
    (env.searchIssues (buildJql env (pyStrip q)) = Except.ok [] →
      JIRATool_invoke env q = Except.ok none) := by
  refine ⟨?_, ?_, ?_, ?_, ?_⟩
  · unfold JIRATool_invoke
    cases h : jiratool_invoke_body env q with
    | error e => exact ⟨none, rfl⟩
    | ok r => exact ⟨r, rfl⟩
  · intro h
    unfold JIRATool_invoke
    rw [h]
  · intro h
    unfold JIRATool_invoke jiratool_invoke_body
    simp [h]
  · intro h
    unfold JIRATool_invoke jiratool_invoke_body
    cases hc : env.configured <;> simp [h, hc]
  · intro h
    unfold JIRATool_invoke jiratool_invoke_body
    cases hc : env.configured <;> cases hg : env.getJiraOk <;> simp [h, hc, hg]

end LangGraphBot
